import Mathlib

/-!
Verification of the MongoDB HTTP bridge (`src/mongodb_bridge.py`): a Flask
service exposing MongoDB over HTTP, guarded by an `X-API-Key` shared secret.
We embed the request handlers, the auth decorator, the extended-JSON codec
(`parse_json_extended` / `serialize_response`, built on pymongo `json_util`
in legacy mode) and the lazy client initialization, and prove or refute the
specified properties.
-/

namespace Bridge

/-- Wire-level JSON values, as produced by `request.get_json()` and consumed
by `jsonify`. Floating point numbers are outside the model. -/
inductive Json where
  | null
  | bool (b : Bool)
  | int (n : Int)
  | str (s : String)
  | arr (elems : List Json)
  | obj (fields : List (String × Json))
  deriving Repr

/-- BSON values the backend driver can hand to `serialize_response` or that
`parse_json_extended` can produce: plain JSON scalars, the extended types
modelled in full (object identifiers and dates; `Int64` is identified with
`int`, as legacy mode serializes it as a plain number and Python compares
them equal), arrays and documents. The `exotic` constructor stands for a
driver value of a type outside this model's value space (binary, regex,
timestamp, code, uuid, decimal128, dbref/dbpointer, min/max key, double),
as produced by the decoder's parser for the given marker key from the wire
object's decoded fields; its inner structure is not modelled further. -/
inductive BsonValue where
  | null
  | bool (b : Bool)
  | int (n : Int)
  | str (s : String)
  | objectId (digits : List (Fin 16))
  | date (millis : Int)
  | array (elems : List BsonValue)
  | document (fields : List (String × BsonValue))
  | exotic (marker : String) (fields : List (String × BsonValue))
  deriving Repr

/-- Lowercase hex digit, as in `str(ObjectId(...))`. -/
def hexChar (d : Fin 16) : Char :=
  if d.val < 10 then Char.ofNat (48 + d.val) else Char.ofNat (87 + d.val)

/-- Hex digit value of a character, case-insensitive, as accepted by the
`ObjectId` constructor. -/
def hexVal (c : Char) : Option (Fin 16) :=
  if h : 48 ≤ c.toNat ∧ c.toNat ≤ 57 then some ⟨c.toNat - 48, by omega⟩
  else if h : 97 ≤ c.toNat ∧ c.toNat ≤ 102 then some ⟨c.toNat - 87, by omega⟩
  else if h : 65 ≤ c.toNat ∧ c.toNat ≤ 70 then some ⟨c.toNat - 55, by omega⟩
  else none

mutual

/-- Model of `serialize_response`: `json.loads(json_util.dumps(data))`. In legacy
mode `json_util.dumps` renders an `ObjectId` as an object with single key
marked by dollar-oid holding the 24-char lowercase hex string, and a
`datetime` as an object with the single dollar-date key holding epoch
milliseconds; scalars, arrays and documents pass through structurally, and
an exotic value re-encodes to the wire object it was decoded from. -/
def serialize_response : BsonValue → Json
  | .null => .null
  | .bool b => .bool b
  | .int n => .int n
  | .str s => .str s
  | .objectId ds => .obj [("$oid", .str (String.mk (ds.map hexChar)))]
  | .date ms => .obj [("$date", .int ms)]
  | .array xs => .arr (serializeList xs)
  | .document fs => .obj (serializeFields fs)
  | .exotic _ fs => .obj (serializeFields fs)

def serializeList : List BsonValue → List Json
  | [] => []
  | x :: xs => serialize_response x :: serializeList xs

def serializeFields : List (String × BsonValue) → List (String × Json)
  | [] => []
  | (k, v) :: fs => (k, serialize_response v) :: serializeFields fs

end

/-- Hex-decode a character list; fails on the first non-hex character. -/
def hexList : List Char → Option (List (Fin 16))
  | [] => some []
  | c :: cs => do pure ((← hexVal c) :: (← hexList cs))

/-- Model of the `ObjectId` string constructor: accepts exactly 24 hex characters, else raises
`InvalidId`. -/
def parseOidString (s : String) : Option (List (Fin 16)) :=
  if s.data.length = 24 then hexList s.data else none

/-- The marker keys the `object_hook` of `json_util.loads` recognizes, in
the order its if-chain checks them: an object containing any of these is
handed to that marker's parser instead of staying a plain document. -/
def reservedMarkerKeys : List String :=
  ["$oid", "$ref", "$date", "$regex", "$minKey", "$maxKey", "$binary",
   "$code", "$uuid", "$undefined", "$numberLong", "$timestamp",
   "$numberDecimal", "$dbPointer", "$regularExpression", "$symbol",
   "$numberInt", "$numberDouble"]

/-- Decimal value of a digit list; fails on the first non-digit. -/
def decDigitsAux : List Char → Nat → Option Nat
  | [], acc => some acc
  | c :: cs, acc =>
      if 48 ≤ c.toNat ∧ c.toNat ≤ 57 then
        decDigitsAux cs (acc * 10 + (c.toNat - 48))
      else none

/-- Model of Python `int(s)` on a canonical integer payload: an optional
leading minus sign followed by decimal digits. -/
def parseIntString (s : String) : Option Int :=
  match s.data with
  | [] => none
  | c :: cs =>
      if c = '-' then
        match cs with
        | [] => none
        | _ => (decDigitsAux cs 0).map (fun n => -(n : Int))
      else (decDigitsAux (c :: cs) 0).map (fun n => (n : Int))

/-- Parser dispatch of the object hook, one case per marker key. The
dollar-oid object must be exactly that single key holding a valid
hex string (else the loader raises, modelled as `none`); the dollar-date
payload is an epoch-milliseconds integer; number-long and number-int
payloads are integer strings and decode to integers (legacy `Int64`
compares equal to `int`); a symbol decodes to its string, an undefined to
`None`. Every other marker produces a driver value of a type outside the
modelled value space, abstracted as `exotic` with the object's fields. -/
def parseMarker (marker : String) (fs : List (String × BsonValue)) : Option BsonValue :=
  if marker == "$oid" then
    match fs with
    | [(_, .str s)] => (parseOidString s).map .objectId
    | _ => none
  else if marker == "$date" then
    match fs with
    | [(_, .int ms)] => some (.date ms)
    | _ => none
  else if marker == "$numberLong" || marker == "$numberInt" then
    match fs with
    | [(_, .str s)] => (parseIntString s).map .int
    | _ => none
  else if marker == "$symbol" then
    match fs with
    | [(_, .str s)] => some (.str s)
    | _ => none
  else if marker == "$undefined" then
    some .null
  else
    some (.exotic marker fs)

/-- The `object_hook` of `json_util.loads`: runs on every decoded JSON
object, innermost first. The first reserved marker key present (in the
chain's order) selects a type parser; an object with no marker key stays a
plain document. -/
def objectHook (fs : List (String × BsonValue)) : Option BsonValue :=
  match reservedMarkerKeys.find? (fun k => fs.any (fun kv => kv.1 == k)) with
  | some marker => parseMarker marker fs
  | none => some (.document fs)

mutual

/-- Model of `parse_json_extended`: `json_util.loads(json.dumps(data))`. Decodes
structurally and applies `objectHook` to every object bottom-up; `none`
models an exception raised during decoding. -/
def parse_json_extended : Json → Option BsonValue
  | .null => some .null
  | .bool b => some (.bool b)
  | .int n => some (.int n)
  | .str s => some (.str s)
  | .arr xs => (parseList xs).map .array
  | .obj fs => (parseFields fs).bind objectHook

def parseList : List Json → Option (List BsonValue)
  | [] => some []
  | x :: xs => do pure ((← parse_json_extended x) :: (← parseList xs))

def parseFields : List (String × Json) → Option (List (String × BsonValue))
  | [] => some []
  | (k, v) :: fs => do pure ((k, ← parse_json_extended v) :: (← parseFields fs))

end

mutual

/-- Well-formedness for the round-trip: every object identifier has its 24
digits, no document uses a field name that collides with any of the
codec's reserved type-marker keys, and no exotic (unmodelled-type) value
occurs. -/
def wfBson : BsonValue → Bool
  | .null | .bool _ | .int _ | .str _ | .date _ => true
  | .objectId ds => ds.length = 24
  | .array xs => wfBsonList xs
  | .document fs =>
      fs.all (fun kv => !(reservedMarkerKeys.contains kv.1)) && wfBsonFields fs
  | .exotic _ _ => false

def wfBsonList : List BsonValue → Bool
  | [] => true
  | x :: xs => wfBson x && wfBsonList xs

def wfBsonFields : List (String × BsonValue) → Bool
  | [] => true
  | (_, v) :: fs => wfBson v && wfBsonFields fs

end

/-- Python truthiness of an optional header/string value: `None` and the
empty string are falsy. -/
def pyFalsyStr : Option String → Bool
  | none => true
  | some s => s == ""

/-- Python truthiness of a JSON value: `None`, `False`, `0`, the empty
string, the empty array and the empty object are falsy. -/
def pyFalsyJson : Json → Bool
  | .null => true
  | .bool b => !b
  | .int n => n == 0
  | .str s => s == ""
  | .arr xs => xs.isEmpty
  | .obj fs => fs.isEmpty

/-- Startup configuration of the credential: `API_KEY` comes from the
environment; when unset or empty (`if not API_KEY`) a random urlsafe token
is generated instead (modelled by `generatedKey`). -/
def configuredApiKey (envKey : Option String) (generatedKey : String) : String :=
  match envKey with
  | none => generatedKey
  | some s => if s == "" then generatedKey else s

/-- A protected request as seen by the auth decorator: only the value of
the `X-API-Key` header matters (`request.headers.get`, `none` = absent). -/
structure AuthRequest where
  xApiKey : Option String

/-- Result of a wrapped endpoint call: either the decorator's 401 rejection
or the wrapped handler's own result. -/
inductive AuthResult (α : Type) where
  | unauthorized (status : Nat) (error : String)
  | handled (a : α)

/-- Model of the `require_api_key` decorator: reject with 401 when the
header is falsy (absent or empty) or differs from the credential, else run
the wrapped handler on the request unchanged. -/
def require_api_key {α : Type} (apiKey : String) (f : AuthRequest → α)
    (req : AuthRequest) : AuthResult α :=
  if pyFalsyStr req.xApiKey || req.xApiKey != some apiKey then
    .unauthorized 401 "Unauthorized - Invalid or missing API key"
  else
    .handled (f req)

/-- Exceptions distinguished by the handlers' except clauses: driver errors
(`PyMongoError`) versus anything else. -/
inductive PyExn where
  | pyMongoError (msg : String)
  | otherExn (msg : String)

/-- An error response `\x7b"error": msg\x7d` with an HTTP status. -/
structure ErrorResponse where
  status : Nat
  error : String
  deriving DecidableEq, Repr

/-- Exception dispatch of the `/query` handler: `PyMongoError` → 500 with
the driver message, any other exception → 400 with the prefixed message. -/
def queryExnHandler : PyExn → Option ErrorResponse
  | .pyMongoError m => some ⟨500, m⟩
  | .otherExn m => some ⟨400, "Query error: " ++ m⟩

/-- Exception dispatch of the `/aggregate` handler. -/
def aggregateExnHandler : PyExn → Option ErrorResponse
  | .pyMongoError m => some ⟨500, m⟩
  | .otherExn m => some ⟨400, "Aggregation error: " ++ m⟩

/-- Exception dispatch of the `/insert` handler. -/
def insertExnHandler : PyExn → Option ErrorResponse
  | .pyMongoError m => some ⟨500, m⟩
  | .otherExn m => some ⟨400, "Insert error: " ++ m⟩

/-- Exception dispatch of the `/update` handler. -/
def updateExnHandler : PyExn → Option ErrorResponse
  | .pyMongoError m => some ⟨500, m⟩
  | .otherExn m => some ⟨400, "Update error: " ++ m⟩

/-- Exception dispatch of the `/delete` handler. -/
def deleteExnHandler : PyExn → Option ErrorResponse
  | .pyMongoError m => some ⟨500, m⟩
  | .otherExn m => some ⟨400, "Delete error: " ++ m⟩

/-- Exception dispatch of the `/command` handler. -/
def commandExnHandler : PyExn → Option ErrorResponse
  | .pyMongoError m => some ⟨500, m⟩
  | .otherExn m => some ⟨400, "Command error: " ++ m⟩

/-- Exception dispatch of the `/sample` handler. -/
def sampleExnHandler : PyExn → Option ErrorResponse
  | .pyMongoError m => some ⟨500, m⟩
  | .otherExn m => some ⟨400, "Sample error: " ++ m⟩

/-- Exception dispatch of `GET /databases`: only `PyMongoError` is caught;
any other exception propagates out of the handler (`none`). -/
def listDatabasesExnHandler : PyExn → Option ErrorResponse
  | .pyMongoError m => some ⟨500, m⟩
  | .otherExn _ => none

/-- Exception dispatch of `GET /databases/db/collections` at the outer try:
only `PyMongoError` is caught. -/
def listCollectionsExnHandler : PyExn → Option ErrorResponse
  | .pyMongoError m => some ⟨500, m⟩
  | .otherExn _ => none

/-- Exception dispatch of `GET /collection/db/collection/count`
(`count_documents`): only `PyMongoError` is caught; any other exception
propagates out of the handler unhandled. -/
def countDocumentsExnHandler : PyExn → Option ErrorResponse
  | .pyMongoError m => some ⟨500, m⟩
  | .otherExn _ => none

/-- Exception dispatch of `GET /collection/db/collection/indexes`. -/
def listIndexesExnHandler : PyExn → Option ErrorResponse
  | .pyMongoError m => some ⟨500, m⟩
  | .otherExn _ => none

/-- Program position of a thread running `get_client`: about to execute the
check of the global, past a check that read `None` and about to construct
and assign the client, or returned. -/
inductive ClientPc where
  | atCheck
  | atCreate
  | returned
  deriving DecidableEq, Repr

/-- Shared and per-thread state for two threads concurrently entering
`get_client` for the first time. `client` is the module-global `_client`
(the `Nat` identifies which construction produced the handle), `initCount`
counts `MongoClient` constructions. -/
structure RaceState where
  client : Option Nat
  initCount : Nat
  pcA : ClientPc
  pcB : ClientPc
  deriving DecidableEq, Repr

/-- The two request threads. -/
inductive ThreadId where
  | A
  | B
  deriving DecidableEq, Repr

/-- Process start: `_client = None`, no constructions, both threads at the
check. -/
def raceInit : RaceState := ⟨none, 0, .atCheck, .atCheck⟩

/-- One atomic step of `get_client` by one thread. The check
`if _client is None` and the assignment `_client = MongoClient(MONGO_URI)`
are distinct interpreter steps with no lock between them. -/
def clientStep (s : RaceState) (t : ThreadId) : RaceState :=
  match t with
  | .A =>
    match s.pcA with
    | .atCheck =>
      match s.client with
      | none => { s with pcA := .atCreate }
      | some _ => { s with pcA := .returned }
    | .atCreate =>
      { s with client := some s.initCount, initCount := s.initCount + 1, pcA := .returned }
    | .returned => s
  | .B =>
    match s.pcB with
    | .atCheck =>
      match s.client with
      | none => { s with pcB := .atCreate }
      | some _ => { s with pcB := .returned }
    | .atCreate =>
      { s with client := some s.initCount, initCount := s.initCount + 1, pcB := .returned }
    | .returned => s

/-- Run both threads under an interleaving schedule. -/
def raceRun (sched : List ThreadId) : RaceState :=
  sched.foldl clientStep raceInit

/-- Collection statistics document returned by the `collStats` command;
fields read with `.get(key, 0)` may be absent. -/
structure CollStats where
  count : Option Int := none
  size : Option Int := none
  avgObjSize : Option Int := none

/-- One entry of the collection listing: full statistics, or the degraded
bare-name form produced when the stats lookup raised. -/
inductive CollEntry where
  | full (name : String) (count size avgObjSize : Int)
  | bare (name : String)
  deriving DecidableEq, Repr

/-- Name carried by a listing entry. -/
def CollEntry.name : CollEntry → String
  | .full n _ _ _ => n
  | .bare n => n

/-- Model of the per-collection loop of `list_collections`: `statsFor`
models the `collStats` command (`none` = the command raised). A failed
lookup degrades that entry to the bare name; the loop never aborts. -/
def list_collections (collections : List String)
    (statsFor : String → Option CollStats) : List CollEntry :=
  collections.map (fun c =>
    match statsFor c with
    | some st => .full c (st.count.getD 0) (st.size.getD 0) (st.avgObjSize.getD 0)
    | none => .bare c)

/-- Body of `POST /query` as read by the handler via `data.get`; `none`
means the field is absent. Numeric fields are modelled for well-typed
requests. -/
structure QueryBody where
  database : String := ""
  collection : String := ""
  filter : Option Json := none
  projection : Option Json := none
  sort : Option Json := none
  limit : Option Nat := none
  skip : Option Nat := none

/-- Result of an operation handler: an error response, or the handler's
success payload. -/
inductive Outcome (α : Type) where
  | failure (status : Nat) (error : String)
  | success (a : α)

/-- Success payload of `/query`: the echoed names, `count` and the
serialized `documents`. -/
structure QueryReply (Doc : Type) where
  database : String
  collection : String
  count : Nat
  documents : List Doc
  deriving DecidableEq, Repr

/-- The cursor contents before paging: the backend's matching documents for
the decoded filter (`findFn`, in natural order), each projected when a
projection was supplied, sorted by the backend when a truthy sort spec was
supplied (`if sort:`). -/
def findBase {Doc : Type} (findFn : BsonValue → List Doc)
    (projFn : Json → Doc → Doc) (sortFn : Json → List Doc → List Doc)
    (filterDoc : BsonValue) (body : QueryBody) : List Doc :=
  let matched := findFn filterDoc
  let projected := match body.projection with
    | none => matched
    | some p => matched.map (projFn p)
  match body.sort with
  | none => projected
  | some sp => if pyFalsyJson sp then projected else sortFn sp projected

/-- Model of the `/query` handler body. Validation mirrors
`if not db_name or not coll_name`; the filter decodes through
`parse_json_extended` (a raised decode error lands in the generic except
clause as a 400); `skip` and `limit` are applied to the cursor only when
truthy (`if skip:` / `if limit:`); `count` is the length of the list the
cursor produced. The backend read is modelled by `findFn`, `projFn`,
`sortFn` as in `findBase`. -/
def query {Doc : Type} (findFn : BsonValue → List Doc)
    (projFn : Json → Doc → Doc) (sortFn : Json → List Doc → List Doc)
    (body : QueryBody) : Outcome (QueryReply Doc) :=
  if body.database == "" || body.collection == "" then
    .failure 400 "database and collection are required"
  else
    match parse_json_extended (body.filter.getD (.obj [])) with
    | none => .failure 400 "Query error: invalid extended JSON"
    | some filterDoc =>
      let limit := body.limit.getD 100
      let skip := body.skip.getD 0
      let base := findBase findFn projFn sortFn filterDoc body
      let afterSkip := if skip != 0 then base.drop skip else base
      let documents := if limit != 0 then afterSkip.take limit else afterSkip
      .success ⟨body.database, body.collection, documents.length, documents⟩

/-- The limit the `/query` handler actually applies: the requested limit,
100 when absent, and none at all when the (requested or defaulted) limit
is 0, since `if limit:` skips `cursor.limit`. -/
def effectiveLimit (body : QueryBody) : Option Nat :=
  if body.limit.getD 100 = 0 then none else some (body.limit.getD 100)

/-- Body of `POST /insert`. `documents` is kept as raw JSON because the
handler branches on its shape (`isinstance(documents, dict)`). -/
structure InsertBody where
  database : String := ""
  collection : String := ""
  documents : Option Json := none
  ordered : Option Bool := none

/-- Success payload of `/insert`. -/
structure InsertReply where
  database : String
  collection : String
  inserted_count : Nat
  inserted_ids : List Json

/-- Model of the `/insert` handler. Validation mirrors
`if not db_name or not coll_name or not documents` (Python truthiness, so
an empty object or empty array is rejected as missing). A lone object is
wrapped into a one-element list; the list decodes through
`parse_json_extended`; `insert_many` (modelled by `genIds`, which returns
the inserted ids for the given ordered flag and documents, one per
document) requires every element to be a document, else it raises a
`TypeError` caught by the generic except clause. -/
def insert (genIds : Bool → List BsonValue → List BsonValue)
    (body : InsertBody) : Outcome InsertReply :=
  if body.database == "" || body.collection == "" ||
      (match body.documents with | none => true | some d => pyFalsyJson d) then
    .failure 400 "database, collection, and documents are required"
  else
    let ordered := body.ordered.getD true
    let docsJson := match body.documents.getD .null with
      | .obj fs => Json.arr [.obj fs]
      | d => d
    match docsJson with
    | .arr ds =>
      match parseList ds with
      | none => .failure 400 "Insert error: invalid extended JSON"
      | some parsed =>
        if parsed.all (fun v => match v with | .document _ => true | _ => false) then
          let ids := genIds ordered parsed
          .success ⟨body.database, body.collection, ids.length, serializeList ids⟩
        else
          .failure 400 "Insert error: documents must be mappings"
    | _ => .failure 400 "Insert error: documents must be a list of documents"

/-- Body of `POST /update`. -/
structure UpdateBody where
  database : String := ""
  collection : String := ""
  filter : Option Json := none
  update : Option Json := none
  many : Option Bool := none
  upsert : Option Bool := none

/-- Success payload of `/update`. -/
structure UpdateReply where
  database : String
  collection : String
  matched_count : Nat
  modified_count : Nat
  upserted_id : Option Json

/-- Model of the `/update` handler. The backend `update_one`/`update_many`
call is modelled by `backend many upsert filterDoc updateDoc`, returning
matched count, modified count and the optional upserted id. -/
def update (backend : Bool → Bool → BsonValue → BsonValue → Nat × Nat × Option BsonValue)
    (body : UpdateBody) : Outcome UpdateReply :=
  if body.database == "" || body.collection == "" ||
      (match body.update with | none => true | some u => pyFalsyJson u) then
    .failure 400 "database, collection, and update are required"
  else
    match parse_json_extended (body.filter.getD (.obj [])),
        parse_json_extended (body.update.getD .null) with
    | some filterDoc, some updateDoc =>
      let many := body.many.getD false
      let upsert := body.upsert.getD false
      let r := backend many upsert filterDoc updateDoc
      .success ⟨body.database, body.collection, r.1, r.2.1, r.2.2.map serialize_response⟩
    | _, _ => .failure 400 "Update error: invalid extended JSON"

/-- Body of `POST /delete`. -/
structure DeleteBody where
  database : String := ""
  collection : String := ""
  filter : Option Json := none
  many : Option Bool := none

/-- Success payload of `/delete`. -/
structure DeleteReply where
  database : String
  collection : String
  deleted_count : Nat
  deriving DecidableEq, Repr

/-- Model of the `/delete` handler over a collection modelled as a list of
documents with a backend match predicate for the decoded filter:
`delete_one` removes the first matching document (deleted count 1 when a
match exists, else 0), `delete_many` removes all matching documents. -/
def delete {Doc : Type} (coll : List Doc) (docMatches : BsonValue → Doc → Bool)
    (body : DeleteBody) : Outcome DeleteReply :=
  if body.database == "" || body.collection == "" then
    .failure 400 "database and collection are required"
  else
    match parse_json_extended (body.filter.getD (.obj [])) with
    | none => .failure 400 "Delete error: invalid extended JSON"
    | some filterDoc =>
      let many := body.many.getD false
      let deletedCount :=
        if many then (coll.filter (docMatches filterDoc)).length
        else if coll.any (docMatches filterDoc) then 1 else 0
      .success ⟨body.database, body.collection, deletedCount⟩

/-- Body of `POST /sample`. -/
structure SampleBody where
  database : String := ""
  collection : String := ""
  size : Option Nat := none

/-- Model of the `/sample` handler: builds the one-stage sample pipeline
with the requested size (default 5) and runs it; the backend aggregation is
modelled by `sampleFn`, returning the sampled documents for a size. -/
def sample {Doc : Type} (sampleFn : Nat → List Doc)
    (body : SampleBody) : Outcome (QueryReply Doc) :=
  if body.database == "" || body.collection == "" then
    .failure 400 "database and collection are required"
  else
    let size := body.size.getD 5
    let results := sampleFn size
    .success ⟨body.database, body.collection, results.length, results⟩

/-- A stats oracle for examples: collection `a` has statistics, the stats
command fails for collection `b`. -/
def demoStats : String → Option CollStats :=
  fun c => if c == "a" then some ⟨some 3, some 9, some 3⟩ else none

/-- A backend id generator for examples: one id per inserted document. -/
def demoGenIds : Bool → List BsonValue → List BsonValue :=
  fun _ docs => docs.map (fun _ => .date 0)

/-- A backend value containing a document whose field name collides with
the codec's object-identifier marker key. -/
def oidInjection : BsonValue :=
  .document [("$oid", .str "0123456789abcdef01234567")]

/-- A representative well-formed backend value: a document holding a date,
an object identifier and an array. -/
def demoBson : BsonValue :=
  .document [("when", .date 1700000000000),
             ("id", .objectId (List.replicate 24 3)),
             ("tags", .array [.str "x", .int 5])]

/-- A query body with an explicit limit of 0 and a skip of 1, for witnesses. -/
def demoQueryBody : QueryBody :=
  ⟨"d", "c", some (.obj []), none, none, some 0, some 1⟩

theorem hexVal_hexChar (d : Fin 16) : hexVal (hexChar d) = some d := by
  revert d; decide

theorem hexList_map_hexChar (ds : List (Fin 16)) :
    hexList (ds.map hexChar) = some ds := by
  induction ds with
  | nil => rfl
  | cons d ds ih => simp [hexList, hexVal_hexChar, ih]

theorem parseOidString_roundtrip (ds : List (Fin 16)) (h : ds.length = 24) :
    parseOidString (String.mk (ds.map hexChar)) = some ds := by
  simp [parseOidString, String.mk, h, hexList_map_hexChar]

theorem objectHook_plain (fs : List (String × BsonValue))
    (h : fs.all (fun kv => !(reservedMarkerKeys.contains kv.1)) = true) :
    objectHook fs = some (.document fs) := by
  rw [List.all_eq_true] at h
  have hfind : reservedMarkerKeys.find? (fun k => fs.any (fun kv => kv.1 == k)) = none := by
    rw [List.find?_eq_none]
    intro k hk hany
    rw [List.any_eq_true] at hany
    obtain ⟨kv, hkv, hbeq⟩ := hany
    have hmem : kv.1 ∉ reservedMarkerKeys := by simpa using h kv hkv
    exact hmem (beq_iff_eq.mp hbeq ▸ hk)
  simp [objectHook, hfind]

theorem objectHook_oid (s : String) :
    objectHook [("$oid", .str s)] = (parseOidString s).map .objectId := rfl

theorem objectHook_date (ms : Int) :
    objectHook [("$date", .int ms)] = some (.date ms) := rfl

mutual

theorem parse_serialize_bson : ∀ (v : BsonValue), wfBson v = true →
    parse_json_extended (serialize_response v) = some v
  | .null, _ => rfl
  | .bool _, _ => rfl
  | .int _, _ => rfl
  | .str _, _ => rfl
  | .date _, _ => by
      simp [serialize_response, parse_json_extended, parseFields, objectHook_date]
  | .objectId ds, h => by
      have h24 : ds.length = 24 := by simpa [wfBson] using h
      simp [serialize_response, parse_json_extended, parseFields, objectHook_oid,
        parseOidString_roundtrip ds h24]
  | .array xs, h => by
      have hx := parse_serialize_list xs (by simpa [wfBson] using h)
      simp [serialize_response, parse_json_extended, hx]
  | .document fs, h => by
      have h' : (fs.all (fun kv => !(reservedMarkerKeys.contains kv.1))
          && wfBsonFields fs) = true := by simpa [wfBson] using h
      rw [Bool.and_eq_true] at h'
      have hf := parse_serialize_fields fs h'.2
      simp [serialize_response, parse_json_extended, hf, objectHook_plain fs h'.1]
  | .exotic _ _, h => by simp [wfBson] at h

theorem parse_serialize_list : ∀ (xs : List BsonValue), wfBsonList xs = true →
    parseList (serializeList xs) = some xs
  | [], _ => rfl
  | x :: xs, h => by
      have h' : (wfBson x && wfBsonList xs) = true := by simpa [wfBsonList] using h
      rw [Bool.and_eq_true] at h'
      have hx := parse_serialize_bson x h'.1
      have hxs := parse_serialize_list xs h'.2
      simp [serializeList, parseList, hx, hxs]

theorem parse_serialize_fields : ∀ (fs : List (String × BsonValue)),
    wfBsonFields fs = true → parseFields (serializeFields fs) = some fs
  | [], _ => rfl
  | (k, v) :: fs, h => by
      have h' : (wfBson v && wfBsonFields fs) = true := by simpa [wfBsonFields] using h
      rw [Bool.and_eq_true] at h'
      have hv := parse_serialize_bson v h'.1
      have hfs := parse_serialize_fields fs h'.2
      simp [serializeFields, parseFields, hv, hfs]

end

theorem configuredApiKey_ne_empty (envKey : Option String) (generatedKey : String)
    (hgen : generatedKey ≠ "") : configuredApiKey envKey generatedKey ≠ "" := by
  cases envKey with
  | none => simpa [configuredApiKey] using hgen
  | some s =>
    by_cases hs : s = ""
    · simpa [configuredApiKey, hs] using hgen
    · simp [configuredApiKey, hs]

/-- C1: with the configured credential (which startup guarantees nonempty),
a protected request whose `X-API-Key` header is absent or differs from the
credential gets the 401 error response and the wrapped handler never runs
(the result is the fixed rejection for every possible handler); a request
whose header equals the credential byte-for-byte is passed to the handler
unmodified. -/
theorem auth_gate_spec {α : Type} (envKey : Option String) (generatedKey : String)
    (hgen : generatedKey ≠ "") (req : AuthRequest) (f : AuthRequest → α) :
    (req.xApiKey ≠ some (configuredApiKey envKey generatedKey) →
      require_api_key (configuredApiKey envKey generatedKey) f req =
        .unauthorized 401 "Unauthorized - Invalid or missing API key")
    ∧ (req.xApiKey = some (configuredApiKey envKey generatedKey) →
      require_api_key (configuredApiKey envKey generatedKey) f req = .handled (f req)) := by
  have hkey := configuredApiKey_ne_empty envKey generatedKey hgen
  constructor
  · intro hne
    have hb : (req.xApiKey != some (configuredApiKey envKey generatedKey)) = true := by
      simpa [bne_iff_ne] using hne
    simp [require_api_key, hb]
  · intro heq
    have hb : (req.xApiKey != some (configuredApiKey envKey generatedKey)) = false := by
      simp [heq]
    simp [require_api_key, hb, heq, pyFalsyStr, hkey]

theorem auth_gate_spec_witness :
    require_api_key (configuredApiKey none "k3y") (fun _ => (7 : Nat)) ⟨some "k3y"⟩
      = .handled 7
    ∧ require_api_key (configuredApiKey none "k3y") (fun _ => (7 : Nat)) ⟨some "nope"⟩
      = .unauthorized 401 "Unauthorized - Invalid or missing API key" :=
  ⟨(auth_gate_spec none "k3y" (by decide) ⟨some "k3y"⟩ (fun _ => 7)).2 rfl,
   (auth_gate_spec none "k3y" (by decide) ⟨some "nope"⟩ (fun _ => 7)).1 (by decide)⟩

/-- C3 (amended): encoding a backend value with the codec and decoding the
result yields the original, provided the value is well-formed: its object
identifiers have 24 hex digits and none of its documents uses a field name
colliding with the codec's type-marker keys. -/
theorem extended_json_roundtrip (v : BsonValue) (h : wfBson v = true) :
    parse_json_extended (serialize_response v) = some v :=
  parse_serialize_bson v h

theorem extended_json_roundtrip_witness :
    wfBson demoBson = true
    ∧ parse_json_extended (serialize_response demoBson) = some demoBson :=
  ⟨by decide, extended_json_roundtrip demoBson (by decide)⟩

/-- C3 counterexample: a backend document whose only field is named like
the codec's object-identifier marker and holds a 24-char hex string does
not round-trip: decoding its encoding yields an object identifier, not the
original document. -/
theorem extended_json_roundtrip_counterexample :
    parse_json_extended (serialize_response oidInjection)
      = some (.objectId [0, 1, 2, 3, 4, 5, 6, 7, 8, 9, 10, 11, 12, 13, 14, 15,
          0, 1, 2, 3, 4, 5, 6, 7])
    ∧ parse_json_extended (serialize_response oidInjection) ≠ some oidInjection := by
  constructor
  · rfl
  · intro hc
    rw [show parse_json_extended (serialize_response oidInjection)
        = some (.objectId [0, 1, 2, 3, 4, 5, 6, 7, 8, 9, 10, 11, 12, 13, 14, 15,
          0, 1, 2, 3, 4, 5, 6, 7]) from rfl] at hc
    exact BsonValue.noConfusion (Option.some.inj hc)

/-- C4: the unsynchronized lazy initialization of `_client` is not
race-safe. Under the interleaving where both first-request threads pass the
`is None` check before either assigns, both construct a `MongoClient`
(two initializations), while a serial schedule performs exactly one. -/
theorem get_client_double_init :
    (raceRun [.A, .B, .A, .B]).initCount = 2
    ∧ (raceRun [.A, .B, .A, .B]).pcA = .returned
    ∧ (raceRun [.A, .B, .A, .B]).pcB = .returned
    ∧ (raceRun [.A, .A, .B, .B]).initCount = 1 :=
  ⟨rfl, rfl, rfl, rfl⟩

/-- C5 counterexample: the count endpoint has no generic except clause: a
non-driver exception produces no handler response at all (it propagates to
the framework), rather than a 400 with an operation-name message. -/
theorem count_endpoint_no_400_counterexample :
    countDocumentsExnHandler (PyExn.otherExn "boom") = none := rfl

/-- C5 (amended): the seven POST body endpoints report any non-driver
exception as a 400 whose message carries the operation-name marker, while
the four GET endpoints catch only driver errors (500) and let any other
exception propagate unhandled. -/
theorem exn_dispatch_spec (m : String) :
    queryExnHandler (.otherExn m) = some ⟨400, "Query error: " ++ m⟩
    ∧ aggregateExnHandler (.otherExn m) = some ⟨400, "Aggregation error: " ++ m⟩
    ∧ insertExnHandler (.otherExn m) = some ⟨400, "Insert error: " ++ m⟩
    ∧ updateExnHandler (.otherExn m) = some ⟨400, "Update error: " ++ m⟩
    ∧ deleteExnHandler (.otherExn m) = some ⟨400, "Delete error: " ++ m⟩
    ∧ commandExnHandler (.otherExn m) = some ⟨400, "Command error: " ++ m⟩
    ∧ sampleExnHandler (.otherExn m) = some ⟨400, "Sample error: " ++ m⟩
    ∧ queryExnHandler (.pyMongoError m) = some ⟨500, m⟩
    ∧ listDatabasesExnHandler (.otherExn m) = none
    ∧ listCollectionsExnHandler (.otherExn m) = none
    ∧ countDocumentsExnHandler (.otherExn m) = none
    ∧ listIndexesExnHandler (.otherExn m) = none :=
  ⟨rfl, rfl, rfl, rfl, rfl, rfl, rfl, rfl, rfl, rfl, rfl, rfl⟩

theorem list_collections_names (cs : List String) (statsFor : String → Option CollStats) :
    (list_collections cs statsFor).map CollEntry.name = cs := by
  induction cs with
  | nil => rfl
  | cons c cs ih =>
    have hc : CollEntry.name (match statsFor c with
        | some st => CollEntry.full c (st.count.getD 0) (st.size.getD 0) (st.avgObjSize.getD 0)
        | none => CollEntry.bare c) = c := by
      cases statsFor c <;> rfl
    simpa [list_collections, hc] using ih

/-- C9: during collection listing a failed stats lookup degrades only that
collection's entry to the bare-name form while the listing still contains
one entry per collection with every name present, and a successful lookup
yields the full entry; moreover no exception path of any operation handler
turns an exception into a success response (every caught exception becomes
a 400- or 500-class error; uncaught ones propagate). -/
theorem list_collections_degrade_spec (collections : List String)
    (statsFor : String → Option CollStats) :
    ((list_collections collections statsFor).map CollEntry.name = collections)
    ∧ (∀ c ∈ collections, statsFor c = none →
        CollEntry.bare c ∈ list_collections collections statsFor)
    ∧ (∀ c ∈ collections, ∀ st, statsFor c = some st →
        CollEntry.full c (st.count.getD 0) (st.size.getD 0) (st.avgObjSize.getD 0)
          ∈ list_collections collections statsFor)
    ∧ (∀ e r, queryExnHandler e = some r ∨ aggregateExnHandler e = some r
        ∨ insertExnHandler e = some r ∨ updateExnHandler e = some r
        ∨ deleteExnHandler e = some r ∨ commandExnHandler e = some r
        ∨ sampleExnHandler e = some r ∨ listDatabasesExnHandler e = some r
        ∨ listCollectionsExnHandler e = some r ∨ countDocumentsExnHandler e = some r
        ∨ listIndexesExnHandler e = some r → 400 ≤ r.status) := by
  refine ⟨list_collections_names collections statsFor, ?_, ?_, ?_⟩
  · intro c hc hnone
    have he : (match statsFor c with
        | some st => CollEntry.full c (st.count.getD 0) (st.size.getD 0) (st.avgObjSize.getD 0)
        | none => CollEntry.bare c) = CollEntry.bare c := by rw [hnone]
    exact he ▸ List.mem_map_of_mem _ hc
  · intro c hc st hsome
    have he : (match statsFor c with
        | some st => CollEntry.full c (st.count.getD 0) (st.size.getD 0) (st.avgObjSize.getD 0)
        | none => CollEntry.bare c)
        = CollEntry.full c (st.count.getD 0) (st.size.getD 0) (st.avgObjSize.getD 0) := by
      rw [hsome]
    exact he ▸ List.mem_map_of_mem _ hc
  · intro e r hr
    rcases hr with h | h | h | h | h | h | h | h | h | h | h <;> cases e <;>
      simp only [queryExnHandler, aggregateExnHandler, insertExnHandler, updateExnHandler,
        deleteExnHandler, commandExnHandler, sampleExnHandler, listDatabasesExnHandler,
        listCollectionsExnHandler, countDocumentsExnHandler, listIndexesExnHandler,
        Option.some.injEq, reduceCtorEq] at h <;>
      first
      | exact h.elim
      | (cases h; simp)

theorem list_collections_degrade_spec_witness :
    CollEntry.bare "b" ∈ list_collections ["a", "b"] demoStats
    ∧ CollEntry.full "a" 3 9 3 ∈ list_collections ["a", "b"] demoStats :=
  ⟨(list_collections_degrade_spec ["a", "b"] demoStats).2.1 "b" (by simp) rfl,
   (list_collections_degrade_spec ["a", "b"] demoStats).2.2.1 "a" (by simp)
     ⟨some 3, some 9, some 3⟩ rfl⟩

/-- C8: a delete request with `many` omitted or explicitly false goes to
`delete_one`, whose deleted count is 0 or 1; the reported `deleted_count`
is therefore never greater than 1. -/
theorem delete_one_deleted_count_le_one {Doc : Type} (coll : List Doc)
    (docMatches : BsonValue → Doc → Bool) (body : DeleteBody)
    (hmany : body.many = none ∨ body.many = some false)
    (db c : String) (n : Nat)
    (h : delete coll docMatches body = .success ⟨db, c, n⟩) :
    n ≤ 1 := by
  have hm : body.many.getD false = false := by
    rcases hmany with h' | h' <;> simp [h']
  unfold delete at h
  split at h
  · exact Outcome.noConfusion h
  · split at h
    · exact Outcome.noConfusion h
    · simp only [hm, if_false, Outcome.success.injEq, DeleteReply.mk.injEq] at h
      obtain ⟨-, -, hn⟩ := h
      rw [← hn]
      simp only [Bool.false_eq_true, if_false]
      split <;> omega

theorem delete_one_deleted_count_le_one_witness : (1 : Nat) ≤ 1 :=
  delete_one_deleted_count_le_one [0, 1, 2] (fun _ _ => true) ⟨"d", "c", none, none⟩
    (Or.inl rfl) "d" "c" 1 rfl

/-- C6: omitting an optional field is the same as sending the documented
default: find `limit=100` and `skip=0`, insert `ordered=true`, update
`many=false` and `upsert=false`, delete `many=false`, sample `size=5`. -/
theorem handler_defaults_spec :
    (∀ (Doc : Type) (findFn : BsonValue → List Doc) (projFn : Json → Doc → Doc)
        (sortFn : Json → List Doc → List Doc) (body : QueryBody),
      body.limit = none →
        query findFn projFn sortFn body
          = query findFn projFn sortFn { body with limit := some 100 })
    ∧ (∀ (Doc : Type) (findFn : BsonValue → List Doc) (projFn : Json → Doc → Doc)
        (sortFn : Json → List Doc → List Doc) (body : QueryBody),
      body.skip = none →
        query findFn projFn sortFn body
          = query findFn projFn sortFn { body with skip := some 0 })
    ∧ (∀ (genIds : Bool → List BsonValue → List BsonValue) (body : InsertBody),
      body.ordered = none →
        insert genIds body = insert genIds { body with ordered := some true })
    ∧ (∀ (backend : Bool → Bool → BsonValue → BsonValue → Nat × Nat × Option BsonValue)
        (body : UpdateBody),
      body.many = none →
        update backend body = update backend { body with many := some false })
    ∧ (∀ (backend : Bool → Bool → BsonValue → BsonValue → Nat × Nat × Option BsonValue)
        (body : UpdateBody),
      body.upsert = none →
        update backend body = update backend { body with upsert := some false })
    ∧ (∀ (Doc : Type) (coll : List Doc) (docMatches : BsonValue → Doc → Bool)
        (body : DeleteBody),
      body.many = none →
        delete coll docMatches body = delete coll docMatches { body with many := some false })
    ∧ (∀ (Doc : Type) (sampleFn : Nat → List Doc) (body : SampleBody),
      body.size = none →
        sample sampleFn body = sample sampleFn { body with size := some 5 }) := by
  refine ⟨?_, ?_, ?_, ?_, ?_, ?_, ?_⟩ <;>
    (intros; rename_i body h; cases body; subst h; rfl)

theorem handler_defaults_spec_witness :
    sample (fun k => List.range k) (⟨"d", "c", none⟩ : SampleBody)
      = sample (fun k => List.range k) ⟨"d", "c", some 5⟩ :=
  handler_defaults_spec.2.2.2.2.2.2 Nat (fun k => List.range k) ⟨"d", "c", none⟩ rfl

/-- C7 (amended): for every nonempty document object, sending it as the
`documents` field yields exactly the same handler result as sending the
one-element array containing it. (The empty object is excluded: Python
truthiness makes the handler reject it as a missing field, while the
one-element array is accepted.) -/
theorem insert_object_eq_singleton_array (genIds : Bool → List BsonValue → List BsonValue)
    (body : InsertBody) (fs : List (String × Json)) (hfs : fs ≠ []) :
    insert genIds { body with documents := some (.obj fs) }
      = insert genIds { body with documents := some (.arr [.obj fs]) } := by
  cases body
  cases fs with
  | nil => exact absurd rfl hfs
  | cons kv fs => rfl

theorem insert_object_eq_singleton_array_witness :
    insert demoGenIds ⟨"d", "c", some (.obj [("a", .int 1)]), none⟩
      = insert demoGenIds ⟨"d", "c", some (.arr [.obj [("a", .int 1)]]), none⟩ :=
  insert_object_eq_singleton_array demoGenIds ⟨"d", "c", none, none⟩
    [("a", .int 1)] (List.cons_ne_nil _ _)

/-- C7 counterexample: for the empty document object the two request forms
disagree: `documents` set to the empty object is rejected as missing
(Python truthiness), while the one-element array containing the empty
object inserts one document. -/
theorem insert_object_counterexample :
    insert demoGenIds ⟨"d", "c", some (.obj []), none⟩
      = .failure 400 "database, collection, and documents are required"
    ∧ insert demoGenIds ⟨"d", "c", some (.arr [.obj []]), none⟩
      = .success ⟨"d", "c", 1, [.obj [("$date", .int 0)]]⟩
    ∧ insert demoGenIds ⟨"d", "c", some (.obj []), none⟩
      ≠ insert demoGenIds ⟨"d", "c", some (.arr [.obj []]), none⟩ := by
  refine ⟨rfl, rfl, ?_⟩
  intro hc
  rw [show insert demoGenIds ⟨"d", "c", some (.obj []), none⟩
        = .failure 400 "database, collection, and documents are required" from rfl,
      show insert demoGenIds ⟨"d", "c", some (.arr [.obj []]), none⟩
        = .success ⟨"d", "c", 1, [.obj [("$date", .int 0)]]⟩ from rfl] at hc
  exact Outcome.noConfusion hc

/-- C2: whenever the find handler succeeds, the reported `count` is the
length of the returned documents array, and it is at most the limit the
handler actually applies (the requested limit, 100 by default, none when
the limit is 0). -/
theorem query_count_spec {Doc : Type} (findFn : BsonValue → List Doc)
    (projFn : Json → Doc → Doc) (sortFn : Json → List Doc → List Doc)
    (body : QueryBody) (db c : String) (cnt : Nat) (docs : List Doc)
    (h : query findFn projFn sortFn body = .success ⟨db, c, cnt, docs⟩) :
    cnt = docs.length ∧ ∀ n, effectiveLimit body = some n → cnt ≤ n := by
  unfold query at h
  split at h
  · exact Outcome.noConfusion h
  · split at h
    · exact Outcome.noConfusion h
    · simp only [Outcome.success.injEq, QueryReply.mk.injEq] at h
      obtain ⟨-, -, hcnt, hdocs⟩ := h
      constructor
      · rw [← hcnt, ← hdocs]
      · intro n hn
        unfold effectiveLimit at hn
        split at hn
        · exact Option.noConfusion hn
        · rename_i hl0
          obtain rfl : body.limit.getD 100 = n := Option.some.inj hn
          have hbne : (body.limit.getD 100 != 0) = true := by
            simpa [bne_iff_ne] using hl0
          rw [← hcnt, hbne]
          simp [List.length_take]

theorem query_count_spec_witness :
    2 = [10, 20].length ∧ 2 ≤ 2 :=
  let t := query_count_spec (fun _ => [10, 20, 30, 40, 50]) (fun _ d => d) (fun _ l => l)
    ⟨"d", "c", some (.obj []), none, none, some 2, none⟩ "d" "c" 2 [10, 20] rfl
  ⟨t.1, t.2 2 rfl⟩

/-- C10: when the body explicitly sets `limit` to 0, `if limit:` skips
`cursor.limit` entirely, so on success the returned documents are all the
matching (projected, sorted) documents after the skip — not zero documents
and not the default 100. -/
theorem query_limit_zero_spec {Doc : Type} (findFn : BsonValue → List Doc)
    (projFn : Json → Doc → Doc) (sortFn : Json → List Doc → List Doc)
    (body : QueryBody) (db c : String) (cnt : Nat) (docs : List Doc)
    (hl : body.limit = some 0)
    (h : query findFn projFn sortFn body = .success ⟨db, c, cnt, docs⟩) :
    ∃ filterDoc, parse_json_extended (body.filter.getD (.obj [])) = some filterDoc
      ∧ docs = (findBase findFn projFn sortFn filterDoc body).drop (body.skip.getD 0) := by
  unfold query at h
  split at h
  · exact Outcome.noConfusion h
  · split at h
    · exact Outcome.noConfusion h
    · rename_i filterDoc heq
      simp only [Outcome.success.injEq, QueryReply.mk.injEq] at h
      obtain ⟨-, -, -, hdocs⟩ := h
      refine ⟨filterDoc, heq, ?_⟩
      rw [← hdocs]
      have hlim : (body.limit.getD 100 != 0) = false := by rw [hl]; rfl
      rw [hlim]
      by_cases hs : body.skip.getD 0 = 0
      · simp [hs]
      · have : (body.skip.getD 0 != 0) = true := by simpa [bne_iff_ne] using hs
        rw [this]
        simp

theorem query_limit_zero_spec_witness :
    ∃ filterDoc,
      parse_json_extended (demoQueryBody.filter.getD (.obj [])) = some filterDoc
      ∧ [6, 7] = (findBase (fun _ => [5, 6, 7]) (fun _ d => d) (fun _ l => l) filterDoc
          demoQueryBody).drop (demoQueryBody.skip.getD 0) :=
  query_limit_zero_spec (fun _ => [5, 6, 7]) (fun _ d => d) (fun _ l => l)
    demoQueryBody "d" "c" 2 [6, 7] rfl rfl

end Bridge
